import Mathlib

/-!
Verification of the signaling core of the janus-videoroom-web-sdk repository.

The definitions below are a shallow embedding of the TypeScript sources:
- src/src/signal.ts      (SignalClient: transaction correlation and the room protocol),
- src/unnamed/part_001   (JanusClient: connection state machine, reconnection, subscribe),
- src/unnamed/part_004   (track classes and RemoteTrackMap).
Asynchronous behaviour is modelled by explicit state passing: inbound WebSocket
frames become a list of messages folded over the correlator state, timers become
explicit tick functions taking the current time as an argument, and the
promise-queue dependency becomes a counter-plus-FIFO transition system.
-/

namespace Janus

/-- TS type JanusID = string | number (src/unnamed/part_007). -/
abbrev JanusID := String ⊕ Nat

/-- Error codes of errors.ts (ErrorCode enum). -/
inductive ErrorCode where
  | UNEXPECTED_ERROR
  | INVALID_OPERATION
  | INVALID_PARAMS
  | WS_ERR
  | SIGNAL_ERROR
deriving DecidableEq, Repr

/-- Media kind of a track ("audio" | "video"). -/
inductive TrackKind where
  | audio
  | video
deriving DecidableEq, Repr

/-- An SDP description record (interface Jsep in signal.ts). -/
structure Jsep where
  type : String
  sdp : String
deriving DecidableEq, Repr

/-- The parts of an inbound payload that the one-shot transaction listener of
SignalClient.request inspects: a top-level error object (code, reason) and a
nested plugindata.data error (error_code, error). -/
structure Payload where
  err : Option (Nat × String)
  pluginError : Option (Nat × String)
  jsep : Option Jsep
deriving DecidableEq, Repr

/-- Inbound frames as classified by SignalClient.handleMessage via the janus
type discriminator.  The advisory constructor stands for the log-only types
(trickle, webrtcup, hangup, detached, media, slowlink, timeout). -/
inductive InMsg where
  | keepalive
  | ack (tid : String)
  | success (tid : String) (payload : Payload)
  | error (tid : String) (payload : Payload)
  | event (tid : Option String) (payload : Payload)
  | advisory
deriving DecidableEq, Repr

/-- Settled outcome of one request promise. -/
inductive Outcome where
  | resolved (payload : Option Payload)
  | rejected (code : ErrorCode)
  | timedOut
deriving DecidableEq, Repr

/-- Body of the once-listener in SignalClient.request: a payload carrying a
top-level or plugin-data error rejects with SIGNAL_ERROR, anything else
resolves (an ack fires the listener with no payload at all). -/
def settle : Option Payload → Outcome
  | none => .resolved none
  | some p =>
    if p.err.isSome then .rejected .SIGNAL_ERROR
    else if p.pluginError.isSome then .rejected .SIGNAL_ERROR
    else .resolved (some p)

/-- Which inbound frames fire the listener registered under transaction id tid,
and with which payload, following the dispatch in SignalClient.handleMessage:
an ack fires it only when the transaction is not in ignoreAckRequests; success,
error and transaction-carrying event frames always fire it. -/
def firesReply (ignoreAck : Bool) (tid : String) : InMsg → Option (Option Payload)
  | .ack t => if t = tid then (if ignoreAck then none else some none) else none
  | .success t p => if t = tid then some (some p) else none
  | .error t p => if t = tid then some (some p) else none
  | .event t p => if t = some tid then some (some p) else none
  | _ => none

/-- Correlator state for one pending request: the set of transaction ids with a
registered one-shot listener, how many times this request's promise settled,
and the settled outcome if any. -/
structure CorrState where
  listeners : List String
  resolutions : Nat
  outcome : Option Outcome
deriving DecidableEq, Repr

/-- Effect of one inbound frame on the pending request: if the one-shot
listener for tid is still registered and the frame fires it, the listener is
removed (EventEmitter.once semantics) and the promise settles. -/
def handleMessageStep (ignoreAck : Bool) (tid : String) (s : CorrState) (m : InMsg) : CorrState :=
  if tid ∈ s.listeners then
    match firesReply ignoreAck tid m with
    | some p =>
      { listeners := s.listeners.erase tid
        resolutions := s.resolutions + 1
        outcome := some (settle p) }
    | none => s
  else s

/-- State right after SignalClient.request registers its one-shot listener. -/
def requestStart (tid : String) : CorrState :=
  { listeners := [tid], resolutions := 0, outcome := none }

/-- The timeout race at the end of SignalClient.request: if no frame settled
the promise, the catch branch removes every listener for tid and the request
fails with the timeout error. -/
def requestFinish (tid : String) (s : CorrState) : CorrState :=
  match s.outcome with
  | some _ => s
  | none =>
    { listeners := s.listeners.erase tid
      resolutions := s.resolutions + 1
      outcome := some .timedOut }

/-- A whole request lifetime: register the listener, process the inbound frames
that arrive before the deadline, then apply the timeout fallback. -/
def runRequest (ignoreAck : Bool) (tid : String) (msgs : List InMsg) : CorrState :=
  requestFinish tid (msgs.foldl (handleMessageStep ignoreAck tid) (requestStart tid))

/-- Invariant tying the three fields of CorrState together: either the request
is still pending (listener registered, zero settlements) or it has settled
exactly once and its listener is gone. -/
def RequestInv (tid : String) (s : CorrState) : Prop :=
  (s.outcome = none ∧ s.listeners = [tid] ∧ s.resolutions = 0) ∨
  (s.outcome ≠ none ∧ tid ∉ s.listeners ∧ s.resolutions = 1)

/-- Connection states of the client (type ConnectionState, src/unnamed/part_001). -/
inductive ConnState where
  | DISCONNECTED
  | CONNECTING
  | CONNECTED
  | RECONNECTING
  | DISCONNECTING
deriving DecidableEq, Repr

/-- Reasons of the ConnectionDisconnectedReason enum. -/
inductive DiscReason where
  | LEAVE
  | KICKED
  | NETWORK_ERROR
deriving DecidableEq, Repr

/-- One emitted connection-state-change notification (current, previous, reason). -/
structure StateChange where
  curr : ConnState
  prev : ConnState
  reason : Option DiscReason
deriving DecidableEq, Repr

/-- The JanusClient state relevant to the connection and membership machinery
(src/unnamed/part_001): connection state, the reconnection counters, the
joined flag, and the room-membership fields that live inside SignalClient
(roomId, userPrivateId).  The events field records every emitted
connection-state-change notification. -/
structure ClientState where
  connectionState : ConnState
  reconnectAttempts : Nat
  reconnectStart : Nat
  isJoined : Bool
  roomId : Option JanusID
  userPrivateId : Option Nat
  events : List StateChange
deriving DecidableEq, Repr

/-- Constant maxReconnectRetries (src/unnamed/part_001 line 13). -/
def maxReconnectRetries : Nat := 10

/-- Constant maxReconnectDuration in milliseconds (src/unnamed/part_001 line 14). -/
def maxReconnectDuration : Nat := 60 * 1000

/-- JanusClient.changeConnectionState: updates the field and emits the
notification only when the new state differs from the previous one. -/
def changeConnectionState (s : ClientState) (st : ConnState) (reason : Option DiscReason) :
    ClientState :=
  if s.connectionState ≠ st then
    { s with
        connectionState := st
        events := s.events ++ [⟨st, s.connectionState, reason⟩] }
  else s

/-- Effect of SignalClient.close on the fields modelled here: room membership
and the private participant id are cleared. -/
def signalClose (s : ClientState) : ClientState :=
  { s with roomId := none, userPrivateId := none }

/-- Effect of JanusClient.reset on the fields modelled here: reconnection
counters are zeroed and the joined flag is cleared. -/
def resetClient (s : ClientState) : ClientState :=
  { s with reconnectAttempts := 0, reconnectStart := 0, isJoined := false }

/-- JanusClient.handleDisconnect (synchronous part): a duplicate trigger while
already Reconnecting is ignored; the first trigger (attempt counter 0) enters
Reconnecting and records the start timestamp; then an attempt is scheduled
after attempts * attempts * 300 ms.  Returns the new state and the scheduled
delay (none when nothing was scheduled). -/
def handleDisconnect (attemptsNext : Bool) (now : Nat) (s : ClientState) :
    ClientState × Option Nat :=
  if attemptsNext = false ∧ s.connectionState = .RECONNECTING then (s, none)
  else
    let s1 :=
      if s.reconnectAttempts = 0 then
        { changeConnectionState s .RECONNECTING none with reconnectStart := now }
      else s
    (s1, some (s1.reconnectAttempts * s1.reconnectAttempts * 300))

/-- Body of the setTimeout callback in JanusClient.handleDisconnect, fired when
the scheduled delay elapses at time now; ok tells whether the whole reconnect
attempt (signal reconnect plus ICE restarts) succeeded.  On failure the
attempt counter is incremented and either everything is torn down (attempt cap
reached or duration cap exceeded) or the next attempt is scheduled. -/
def reconnectTick (ok : Bool) (now : Nat) (s : ClientState) : ClientState × Option Nat :=
  if s.connectionState ≠ .RECONNECTING then (s, none)
  else if ok then
    (changeConnectionState
      { s with reconnectAttempts := 0, reconnectStart := 0 } .CONNECTED none, none)
  else
    let s1 := { s with reconnectAttempts := s.reconnectAttempts + 1 }
    let duration := now - s1.reconnectStart
    if maxReconnectRetries ≤ s1.reconnectAttempts ∨ maxReconnectDuration < duration then
      (changeConnectionState (resetClient (signalClose s1)) .DISCONNECTED none, none)
    else
      handleDisconnect true now s1

/-- Data of the videoroom join response used by SignalClient.joinPublisher:
the private participant id and the list of already-present publishers. -/
structure JoinResponse where
  privateId : Nat
  publishers : List JanusID
deriving DecidableEq, Repr

/-- JanusClient.join (src/unnamed/part_001): a second join fails with
INVALID_OPERATION before anything else happens; the first join sets the joined
flag and then SignalClient.joinPublisher records the room id and the private
participant id from the gateway response. -/
def ClientState.join (s : ClientState) (roomId : JanusID) (resp : JoinResponse) :
    Except ErrorCode Unit × ClientState :=
  if s.isJoined then (.error .INVALID_OPERATION, s)
  else
    (.ok (),
      { s with isJoined := true, roomId := some roomId, userPrivateId := some resp.privateId })

/-- JanusClient.leave (src/unnamed/part_001): enter Disconnecting, destroy the
signal session (destroyOk tells whether the destroy request settled
successfully; on failure the thrown error aborts leave right there), then
reset and settle in Disconnected with reason LEAVE.  SignalClient.destroy
calls SignalClient.close after a successful request. -/
def leave (destroyOk : Bool) (s : ClientState) : ClientState :=
  let s1 := changeConnectionState s .DISCONNECTING none
  if destroyOk then
    changeConnectionState (resetClient (signalClose s1)) .DISCONNECTED (some .LEAVE)
  else s1

/-- A freshly constructed JanusClient (constructor, src/unnamed/part_001). -/
def initialClientState : ClientState :=
  { connectionState := .DISCONNECTED
    reconnectAttempts := 0
    reconnectStart := 0
    isJoined := false
    roomId := none
    userPrivateId := none
    events := [] }

/-- A client that has connected and joined room 42 as user 7 (used by the
concrete witnesses). -/
def joinedClientState : ClientState :=
  { connectionState := .CONNECTED
    reconnectAttempts := 0
    reconnectStart := 0
    isJoined := true
    roomId := some (.inr 42)
    userPrivateId := some 77
    events := [] }

/-- One stream record of a subscribe/join response
(joined.plugindata.data.streams in signal.ts). -/
structure StreamInfo where
  active : Bool
  type : TrackKind
  feedId : JanusID
  feedMid : String
  mid : String
deriving DecidableEq, Repr

/-- One row of the track identity table (interface TrackMidMap in track.ts). -/
structure TrackMidMap where
  type : TrackKind
  userId : JanusID
  tmpMid : String
  formalMid : String
deriving DecidableEq, Repr

/-- How SignalClient.joinSubscriber / SignalClient.subscribe turn one active
stream record into a TrackMidMap row. -/
def streamToMap (s : StreamInfo) : TrackMidMap :=
  { type := s.type, userId := s.feedId, tmpMid := s.feedMid, formalMid := s.mid }

/-- The gateway response to a subscribe-family request. -/
structure SubscribeResponse where
  jsep : Option Jsep
  streams : List StreamInfo
deriving DecidableEq, Repr

/-- The value returned by the subscribe-family operations
(interface Subscription in signal.ts). -/
structure Subscription where
  jsep : Option Jsep
  tracksMap : List TrackMidMap
deriving DecidableEq, Repr

/-- The loop shared by SignalClient.joinSubscriber and SignalClient.subscribe:
copy the response description and push one row per stream, skipping every
stream whose active flag is not set. -/
def buildSubscription (resp : SubscribeResponse) : Subscription :=
  { jsep := resp.jsep
    tracksMap :=
      resp.streams.foldl (fun acc s => if s.active then acc ++ [streamToMap s] else acc) [] }

/-- A remote track as far as the map is concerned (class RemoteTrack fields
mid and codec plus its kind, src/unnamed/part_004). -/
structure RemoteTrack where
  mid : String
  codec : String
  kind : TrackKind
deriving DecidableEq, Repr

/-- Insert-or-overwrite on an association list (JS Map.set). -/
def assocSet {α β : Type} [DecidableEq α] : List (α × β) → α → β → List (α × β)
  | [], k, v => [(k, v)]
  | (k0, v0) :: rest, k, v =>
    if k0 = k then (k, v) :: rest else (k0, v0) :: assocSet rest k v

/-- Lookup on an association list (JS Map.get). -/
def assocGet {α β : Type} [DecidableEq α] : List (α × β) → α → Option β
  | [], _ => none
  | (k0, v0) :: rest, k => if k0 = k then some v0 else assocGet rest k

/-- Class RemoteTrackMap (src/unnamed/part_004): the row table of the latest
negotiation and the stable-mid keyed track bindings. -/
structure RemoteTrackMap where
  map : List TrackMidMap
  tracks : List (String × RemoteTrack)
deriving DecidableEq, Repr

/-- RemoteTrackMap.update: the row table is assigned wholesale; the track
bindings are untouched. -/
def RemoteTrackMap.update (m : RemoteTrackMap) (newMap : List TrackMidMap) : RemoteTrackMap :=
  { m with map := newMap }

/-- RemoteTrackMap.setTrack: find the row matching both the user id and the
ephemeral mid; when found, bind the track under the row's formal mid; when not
found, a warning is logged and nothing changes. -/
def RemoteTrackMap.setTrack (m : RemoteTrackMap) (userId : JanusID) (tmpMid : String)
    (track : RemoteTrack) : RemoteTrackMap :=
  match m.map.find? (fun r => r.userId == userId && r.tmpMid == tmpMid) with
  | some item => { m with tracks := assocSet m.tracks item.formalMid track }
  | none => m

/-- RemoteTrackMap.getTrack. -/
def RemoteTrackMap.getTrack (m : RemoteTrackMap) (formalMid : String) : Option RemoteTrack :=
  assocGet m.tracks formalMid

/-- RemoteTrackMap.getUser. -/
def RemoteTrackMap.getUser (m : RemoteTrackMap) (formalMid : String) : Option JanusID :=
  (m.map.find? (fun r => r.formalMid == formalMid)).map (fun r => r.userId)

/-- RemoteTrackMap.clear: both the row table and the track bindings are
emptied. -/
def RemoteTrackMap.clear (_m : RemoteTrackMap) : RemoteTrackMap :=
  { map := [], tracks := [] }

/-- A local track as far as configureMedia is concerned: its kind and its
optional bitrate budget (class LocalTrack, src/unnamed/part_004). -/
structure LocalTrack where
  kind : TrackKind
  bitrate : Option Nat
deriving DecidableEq, Repr

/-- Truthiness of track.bitrate in TS: undefined and 0 are falsy. -/
def LocalTrack.truthyBitrate (t : LocalTrack) : Nat :=
  match t.bitrate with
  | some b => b
  | none => 0

/-- The forEach loop of SignalClient.configureMedia accumulating the audio and
video bitrate sums (a track with a falsy bitrate contributes to neither). -/
def sumBitrates (tracks : List LocalTrack) : Nat × Nat :=
  tracks.foldl
    (fun ab t =>
      if t.kind = .audio ∧ t.truthyBitrate ≠ 0 then (ab.1 + t.truthyBitrate, ab.2)
      else if t.kind = .video ∧ t.truthyBitrate ≠ 0 then (ab.1, ab.2 + t.truthyBitrate)
      else ab)
    (0, 0)

/-- The bitrate field of the configure request body: present only when the
video sum is positive, and then equal to (video + audio) * 1000. -/
def configureBitrate (tracks : List LocalTrack) : Option Nat :=
  let s := sumBitrates tracks
  if 0 < s.2 then some ((s.2 + s.1) * 1000) else none

/-- The configure request assembled by SignalClient.configureMedia. -/
structure ConfigureRequest where
  audio : Bool
  video : Bool
  audiocodec : String
  videocodec : String
  bitrate : Option Nat
  jsep : Jsep
deriving DecidableEq, Repr

/-- SignalClient.configureMedia, request-building part. -/
def buildConfigureRequest (offer : Jsep) (tracks : List LocalTrack) : ConfigureRequest :=
  { audio := true
    video := true
    audiocodec := "opus"
    videocodec := "h264"
    bitrate := configureBitrate tracks
    jsep := offer }

/-- The gateway response to a configure request. -/
structure ConfigureResponse where
  jsep : Option Jsep
deriving DecidableEq, Repr

/-- SignalClient.configureMedia, result part: the gateway answer is returned,
and a response without a description is the UNEXPECTED_ERROR protocol
violation. -/
def configureMedia (resp : ConfigureResponse) : Except ErrorCode Jsep :=
  match resp.jsep with
  | none => .error .UNEXPECTED_ERROR
  | some j => .ok j

/-- Specification-side sum of the audio bitrate budgets of a track list. -/
def audioBitrateSum (tracks : List LocalTrack) : Nat :=
  (tracks.filterMap (fun t => if t.kind = TrackKind.audio then t.bitrate else none)).sum

/-- Specification-side sum of the video bitrate budgets of a track list. -/
def videoBitrateSum (tracks : List LocalTrack) : Nat :=
  (tracks.filterMap (fun t => if t.kind = TrackKind.video then t.bitrate else none)).sum

/-- Per-remote-user subscription record (class RemoteUserSubscribed). -/
structure RemoteUserSubscribed where
  userId : JanusID
  audioTrack : Option RemoteTrack
  videoTrack : Option RemoteTrack
deriving DecidableEq, Repr

/-- The binding step of the ontrack handler inside JanusClient.doSubscribe
(src/unnamed/part_001 lines 298-323): fetch or create the per-user record; if
the slot matching the track kind is already bound, stop the old track and bind
the new one in its place.  The Except type records that this revision has no
throwing path; the returned list holds the tracks that were stopped. -/
def bindSubscribedTrack (users : List (JanusID × RemoteUserSubscribed)) (userId : JanusID)
    (track : RemoteTrack) :
    Except ErrorCode (List (JanusID × RemoteUserSubscribed) × List RemoteTrack) :=
  let u :=
    match assocGet users userId with
    | some u => u
    | none => { userId := userId, audioTrack := none, videoTrack := none }
  match track.kind with
  | .video =>
    let stopped :=
      match u.videoTrack with
      | some t0 => [t0]
      | none => []
    .ok (assocSet users userId { u with videoTrack := some track }, stopped)
  | .audio =>
    let stopped :=
      match u.audioTrack with
      | some t0 => [t0]
      | none => []
    .ok (assocSet users userId { u with audioTrack := some track }, stopped)

/-- Read the slot of a per-user record matching a track kind. -/
def slotOf (users : List (JanusID × RemoteUserSubscribed)) (userId : JanusID)
    (kind : TrackKind) : Option RemoteTrack :=
  match assocGet users userId with
  | none => none
  | some u =>
    match kind with
    | .audio => u.audioTrack
    | .video => u.videoTrack

/-- Handle roles of SignalClient. -/
inductive HandleType where
  | publisher
  | subscriber
deriving DecidableEq, Repr

/-- The envelope stamped onto an outgoing request by SignalClient.request. -/
structure OutRequest where
  transaction : String
  token : Option String
  sessionId : Option Nat
  handleId : Option Nat
deriving DecidableEq, Repr

/-- The SignalClient fields consulted while stamping a request, plus the log
of frames actually written to the WebSocket. -/
structure SignalState where
  token : Option String
  sessionId : Option Nat
  publisherId : Option Nat
  subscriberId : Option Nat
  sent : List OutRequest
deriving DecidableEq, Repr

/-- The stamping-and-send phase of SignalClient.request (lines 532-556):
attach token and session id when present; for a handle-scoped request attach
the stored numeric handle id, and throw UNEXPECTED_ERROR before anything is
written when that handle was never attached. -/
def sendRequest (s : SignalState) (tid : String) (handleType : Option HandleType) :
    Except ErrorCode OutRequest × SignalState :=
  let base : OutRequest :=
    { transaction := tid, token := s.token, sessionId := s.sessionId, handleId := none }
  match handleType with
  | none => (.ok base, { s with sent := s.sent ++ [base] })
  | some ht =>
    let hid :=
      match ht with
      | .publisher => s.publisherId
      | .subscriber => s.subscriberId
    match hid with
    | none => (.error .UNEXPECTED_ERROR, s)
    | some h =>
      let req := { base with handleId := some h }
      (.ok req, { s with sent := s.sent ++ [req] })

/-- The promise-queue dependency used for subscribe serialization (class Queue
of the promise-queue npm package): a cap, the number of generator promises in
flight, and the FIFO of queued generators (identified here by numbers). -/
structure PromiseQueue where
  maxPendingPromises : Nat
  pendingPromises : Nat
  queue : List Nat
deriving DecidableEq, Repr

/-- Queue.prototype._dequeue: start the next queued generator unless the
in-flight count has reached the cap; returns the task that starts now. -/
def PromiseQueue.dequeue (q : PromiseQueue) : PromiseQueue × Option Nat :=
  if q.maxPendingPromises ≤ q.pendingPromises then (q, none)
  else
    match q.queue with
    | [] => (q, none)
    | t :: rest =>
      ({ q with pendingPromises := q.pendingPromises + 1, queue := rest }, some t)

/-- Queue.prototype.add: push the generator and try to dequeue. -/
def PromiseQueue.add (q : PromiseQueue) (t : Nat) : PromiseQueue × Option Nat :=
  PromiseQueue.dequeue { q with queue := q.queue ++ [t] }

/-- Completion of an in-flight generator: the in-flight count drops and the
queue is tried again (the then/catch handlers around _dequeue). -/
def PromiseQueue.resolveOne (q : PromiseQueue) : PromiseQueue × Option Nat :=
  if q.pendingPromises = 0 then (q, none)
  else PromiseQueue.dequeue { q with pendingPromises := q.pendingPromises - 1 }

/-- The subscribe queue as constructed by JanusClient (new PromiseQueue(1)). -/
def subscribeQueueInit : PromiseQueue :=
  { maxPendingPromises := 1, pendingPromises := 0, queue := [] }

/-- Events that drive the subscribe queue: a subscribe call (JanusClient
.subscribe adds doSubscribe to the queue) or the completion of the in-flight
subscribe. -/
inductive QOp where
  | add (t : Nat)
  | complete
deriving DecidableEq, Repr

/-- Apply one queue event. -/
def applyQOp (q : PromiseQueue) : QOp → PromiseQueue
  | .add t => (q.add t).1
  | .complete => q.resolveOne.1

/-- Run a sequence of queue events. -/
def runQOps (ops : List QOp) (q : PromiseQueue) : PromiseQueue :=
  ops.foldl applyQOp q

/-- A SignalClient immediately after construction: nothing attached, nothing
sent yet. -/
def emptySignalState : SignalState :=
  { token := none, sessionId := none, publisherId := none, subscriberId := none, sent := [] }

theorem requestInv_start (tid : String) : RequestInv tid (requestStart tid) := by
  left
  exact ⟨rfl, rfl, rfl⟩

theorem requestInv_step (ignoreAck : Bool) (tid : String) (s : CorrState) (m : InMsg)
    (h : RequestInv tid s) : RequestInv tid (handleMessageStep ignoreAck tid s m) := by
  rcases h with ⟨h1, h2, h3⟩ | ⟨h1, h2, h3⟩
  · unfold handleMessageStep
    rw [h2]
    simp only [List.mem_singleton, if_pos rfl]
    cases hf : firesReply ignoreAck tid m with
    | none =>
      left
      exact ⟨h1, h2, h3⟩
    | some p =>
      right
      refine ⟨by simp, ?_, by simp [h3]⟩
      simp [List.erase_cons]
  · unfold handleMessageStep
    rw [if_neg h2]
    right
    exact ⟨h1, h2, h3⟩

theorem requestInv_foldl (ignoreAck : Bool) (tid : String) (msgs : List InMsg) (s : CorrState)
    (h : RequestInv tid s) :
    RequestInv tid (msgs.foldl (handleMessageStep ignoreAck tid) s) := by
  induction msgs generalizing s with
  | nil => exact h
  | cons m rest ih =>
    exact ih _ (requestInv_step ignoreAck tid s m h)

/-- Claim C1: for every request sent through the transport correlator,
whatever the inbound traffic (success payload, error payload, or nothing
before the deadline), the pending transaction settles exactly once and the
one-shot listener registered under its transaction id is unregistered
afterwards, so no listener persists across repeated requests. -/
theorem request_settles_exactly_once_and_unregisters (ignoreAck : Bool) (tid : String)
    (msgs : List InMsg) :
    (runRequest ignoreAck tid msgs).resolutions = 1 ∧
      tid ∉ (runRequest ignoreAck tid msgs).listeners ∧
      (runRequest ignoreAck tid msgs).outcome ≠ none := by
  have h := requestInv_foldl ignoreAck tid msgs (requestStart tid) (requestInv_start tid)
  unfold runRequest requestFinish
  rcases h with ⟨h1, h2, h3⟩ | ⟨h1, h2, h3⟩
  · rw [h1]
    refine ⟨by simp [h3], ?_, by simp⟩
    rw [h2]
    simp [List.erase_cons]
  · cases ho : (List.foldl (handleMessageStep ignoreAck tid) (requestStart tid) msgs).outcome with
    | none => exact absurd ho h1
    | some oc =>
      simp only []
      exact ⟨h3, h2, by simp [ho]⟩

/-- Claim C2: for a request sent with the ignore-ack option, a bare ack frame
carrying its transaction id does not settle the pending transaction (it is
dropped without touching the correlator state); the transaction settles only
at a terminal frame (success, error, or transaction-carrying event) with the
same transaction id. -/
theorem ignored_ack_does_not_resolve (tid : String) :
    (∀ s : CorrState, handleMessageStep true tid s (.ack tid) = s) ∧
    (∀ msgs : List InMsg, runRequest true tid (.ack tid :: msgs) = runRequest true tid msgs) ∧
    (∀ m : InMsg, (firesReply true tid m).isSome ↔
      ∃ p, m = .success tid p ∨ m = .error tid p ∨ m = .event (some tid) p) := by
  have hack : ∀ s : CorrState, handleMessageStep true tid s (.ack tid) = s := by
    intro s
    unfold handleMessageStep firesReply
    simp
  refine ⟨hack, ?_, ?_⟩
  · intro msgs
    unfold runRequest
    rw [List.foldl_cons, hack]
  · intro m
    cases m with
    | keepalive => simp [firesReply]
    | ack t =>
      constructor
      · intro h
        by_cases ht : t = tid
        · subst ht
          simp [firesReply] at h
        · simp [firesReply, ht] at h
      · rintro ⟨p, hp | hp | hp⟩ <;> exact absurd hp (by simp)
    | success t p =>
      constructor
      · intro h
        by_cases ht : t = tid
        · exact ⟨p, Or.inl (by rw [ht])⟩
        · simp [firesReply, ht] at h
      · rintro ⟨q, hq | hq | hq⟩ <;> simp_all [firesReply]
    | error t p =>
      constructor
      · intro h
        by_cases ht : t = tid
        · exact ⟨p, Or.inr (Or.inl (by rw [ht]))⟩
        · simp [firesReply, ht] at h
      · rintro ⟨q, hq | hq | hq⟩ <;> simp_all [firesReply]
    | event t p =>
      constructor
      · intro h
        by_cases ht : t = some tid
        · exact ⟨p, Or.inr (Or.inr (by rw [ht]))⟩
        · simp [firesReply, ht] at h
      · rintro ⟨q, hq | hq | hq⟩ <;> simp_all [firesReply]
    | advisory => simp [firesReply]

/-- Claim C3: on unsolicited transport loss while Connected the client enters
Reconnecting, records the start timestamp and schedules attempt 0 immediately;
a failed attempt increments the counter and schedules the next attempt after
attempts * attempts * 300 ms while the caps allow it; the client tears down to
Disconnected exactly when the incremented counter reaches 10 or the elapsed
duration exceeds 60 s (and then schedules nothing further); a successful
attempt resets the counter and returns to Connected. -/
theorem reconnect_state_machine_spec :
    (∀ (s : ClientState) (now : Nat),
      s.connectionState = .CONNECTED → s.reconnectAttempts = 0 →
        (handleDisconnect false now s).1.connectionState = .RECONNECTING ∧
        (handleDisconnect false now s).1.reconnectStart = now ∧
        (handleDisconnect false now s).2 = some 0) ∧
    (∀ (s : ClientState) (now : Nat),
      s.connectionState = .RECONNECTING →
        s.reconnectAttempts + 1 < maxReconnectRetries →
        now - s.reconnectStart ≤ maxReconnectDuration →
        (reconnectTick false now s).1.connectionState = .RECONNECTING ∧
        (reconnectTick false now s).1.reconnectAttempts = s.reconnectAttempts + 1 ∧
        (reconnectTick false now s).2 =
          some ((s.reconnectAttempts + 1) * (s.reconnectAttempts + 1) * 300)) ∧
    (∀ (s : ClientState) (now : Nat),
      s.connectionState = .RECONNECTING →
        (maxReconnectRetries ≤ s.reconnectAttempts + 1 ∨
          maxReconnectDuration < now - s.reconnectStart) →
        (reconnectTick false now s).1.connectionState = .DISCONNECTED ∧
        (reconnectTick false now s).2 = none) ∧
    (∀ (s : ClientState) (now : Nat),
      s.connectionState = .RECONNECTING →
        (reconnectTick true now s).1.connectionState = .CONNECTED ∧
        (reconnectTick true now s).1.reconnectAttempts = 0 ∧
        (reconnectTick true now s).2 = none) ∧
    (∀ (s : ClientState) (now : Nat) (ok : Bool),
      s.reconnectAttempts + 1 ≤ maxReconnectRetries →
        (reconnectTick ok now s).1.reconnectAttempts + 1 ≤ maxReconnectRetries) := by
  refine ⟨?_, ?_, ?_, ?_, ?_⟩
  · intro s now hc ha
    have hne : s.connectionState ≠ ConnState.RECONNECTING := by
      rw [hc]
      simp
    unfold handleDisconnect
    simp [ha, changeConnectionState, hne]
  · intro s now hc hcap hdur
    unfold reconnectTick
    rw [hc]
    have hterm : ¬ (maxReconnectRetries ≤ s.reconnectAttempts + 1 ∨
        maxReconnectDuration < now - s.reconnectStart) := by
      push_neg
      exact ⟨hcap, hdur⟩
    simp only [ne_eq, not_true_eq_false, if_false, reduceCtorEq, if_neg hterm]
    unfold handleDisconnect
    have hne : s.reconnectAttempts + 1 ≠ 0 := Nat.succ_ne_zero _
    simp [hne, hc]
  · intro s now hc hterm
    unfold reconnectTick
    rw [hc]
    simp only [ne_eq, not_true_eq_false, if_false, reduceCtorEq]
    rw [if_pos hterm]
    constructor
    · unfold changeConnectionState resetClient signalClose
      by_cases h : s.connectionState = ConnState.DISCONNECTED
      · rw [hc] at h
        exact absurd h (by simp)
      · simp [hc]
    · rfl
  · intro s now hc
    unfold reconnectTick
    rw [hc]
    simp [changeConnectionState, hc]
  · intro s now ok hcap
    unfold reconnectTick
    by_cases hc : s.connectionState = ConnState.RECONNECTING
    · rw [hc]
      cases ok with
      | true => simp [changeConnectionState, hc, maxReconnectRetries]
      | false =>
        simp only [ne_eq, not_true_eq_false, if_false, Bool.false_eq_true, reduceCtorEq]
        by_cases hterm : maxReconnectRetries ≤ s.reconnectAttempts + 1 ∨
            maxReconnectDuration < now - s.reconnectStart
        · rw [if_pos hterm]
          simp [changeConnectionState, resetClient, signalClose, maxReconnectRetries]
        · rw [if_neg hterm]
          push_neg at hterm
          unfold handleDisconnect
          have hne : s.reconnectAttempts + 1 ≠ 0 := Nat.succ_ne_zero _
          simp only [Bool.true_eq_false, false_and, if_false, hne, if_neg, reduceIte]
          omega
    · rw [if_pos hc]
      exact hcap

/-- Witness for claim C3: the branches of the reconnection state machine at
concrete states. -/
theorem reconnect_state_machine_spec_witness :
    (handleDisconnect false 5000 joinedClientState).1.connectionState = .RECONNECTING ∧
    (handleDisconnect false 5000 joinedClientState).2 = some 0 := by
  have h := reconnect_state_machine_spec.1 joinedClientState 5000 (by decide) (by decide)
  exact ⟨h.1, h.2.2⟩

/-- Claim C4: a second call to join on a client whose joined flag is already
set (join completed or at least initiated) fails with INVALID_OPERATION and
leaves the whole client state, in particular the joined flag, the room id and
the private participant id, exactly as it was. -/
theorem join_twice_fails_and_preserves_membership (s : ClientState) (roomId : JanusID)
    (resp : JoinResponse) (h : s.isJoined = true) :
    s.join roomId resp = (.error .INVALID_OPERATION, s) := by
  unfold ClientState.join
  rw [h]
  simp

/-- Witness for claim C4: the concrete joined client rejects a second join
unchanged. -/
theorem join_twice_fails_and_preserves_membership_witness :
    joinedClientState.join (.inr 42) ⟨77, []⟩ =
      (.error .INVALID_OPERATION, joinedClientState) :=
  join_twice_fails_and_preserves_membership joinedClientState (.inr 42) ⟨77, []⟩ rfl

/-- Counterexample to claim C8 as stated: calling leave on an
already-Disconnected client is not a no-op.  It first transitions to
Disconnecting, emitting a connection-state-change notification (and if the
destroy request fails, which it must on a closed transport, the client is
left in Disconnecting). -/
theorem leave_on_disconnected_not_noop :
    (leave false initialClientState).events ≠ [] ∧
    (leave false initialClientState).connectionState = ConnState.DISCONNECTING ∧
    (leave true initialClientState).events =
      [⟨.DISCONNECTING, .DISCONNECTED, none⟩, ⟨.DISCONNECTED, .DISCONNECTING, some .LEAVE⟩] := by
  decide

/-- Claim C8 amended: a transition to the state the client is already in is a
no-op and is not reported; however leave on an already-Disconnected client is
not a no-op: it passes through Disconnecting and emits that transition (plus
the transition back to Disconnected when the destroy request settles). -/
theorem same_state_transition_not_reported :
    (∀ (s : ClientState) (st : ConnState) (r : Option DiscReason),
      s.connectionState = st → changeConnectionState s st r = s) ∧
    (leave false initialClientState).events = [⟨.DISCONNECTING, .DISCONNECTED, none⟩] ∧
    (leave true initialClientState).events =
      [⟨.DISCONNECTING, .DISCONNECTED, none⟩, ⟨.DISCONNECTED, .DISCONNECTING, some .LEAVE⟩] := by
  refine ⟨?_, by decide, by decide⟩
  intro s st r h
  unfold changeConnectionState
  rw [h]
  simp

/-- Witness for claim C8 (amended): a Connected-to-Connected transition on a
concrete client changes nothing and emits nothing. -/
theorem same_state_transition_not_reported_witness :
    changeConnectionState joinedClientState .CONNECTED none = joinedClientState :=
  same_state_transition_not_reported.1 joinedClientState .CONNECTED none rfl

theorem foldl_pushActive (l : List StreamInfo) (acc : List TrackMidMap) :
    l.foldl (fun acc s => if s.active then acc ++ [streamToMap s] else acc) acc
      = acc ++ (l.filter (fun s => s.active)).map streamToMap := by
  induction l generalizing acc with
  | nil => simp
  | cons s l ih =>
    rw [List.foldl_cons]
    by_cases h : s.active = true
    · rw [if_pos h, ih]
      simp [List.filter_cons, h]
    · rw [if_neg h, ih]
      simp [List.filter_cons, h]

/-- Claim C5: a subscribe-family response yields a subscription carrying the
remote description of the response and a track-mapping table holding exactly
the rows of the active streams of that response (inactive entries filtered
out); applying it through RemoteTrackMap.update replaces the row table
wholesale while leaving every stable-mid-to-track binding readable as before,
and only RemoteTrackMap.clear empties the bindings. -/
theorem subscription_filters_inactive_and_update_replaces :
    (∀ resp : SubscribeResponse, (buildSubscription resp).jsep = resp.jsep) ∧
    (∀ (resp : SubscribeResponse) (e : TrackMidMap),
      e ∈ (buildSubscription resp).tracksMap ↔
        ∃ s, s ∈ resp.streams ∧ s.active = true ∧ e = streamToMap s) ∧
    (∀ (m : RemoteTrackMap) (newMap : List TrackMidMap),
      (m.update newMap).map = newMap ∧ (m.update newMap).tracks = m.tracks) ∧
    (∀ (m : RemoteTrackMap) (newMap : List TrackMidMap) (fm : String),
      (m.update newMap).getTrack fm = m.getTrack fm) ∧
    (∀ m : RemoteTrackMap,
      (RemoteTrackMap.clear m).map = [] ∧ (RemoteTrackMap.clear m).tracks = []) := by
  refine ⟨fun resp => rfl, ?_, fun m newMap => ⟨rfl, rfl⟩, fun m newMap fm => rfl,
    fun m => ⟨rfl, rfl⟩⟩
  intro resp e
  unfold buildSubscription
  simp only []
  rw [foldl_pushActive]
  simp only [List.nil_append, List.mem_map, List.mem_filter]
  constructor
  · rintro ⟨s, ⟨hs, ha⟩, he⟩
    exact ⟨s, hs, ha, he.symm⟩
  · rintro ⟨s, hs, ha, he⟩
    exact ⟨s, ⟨hs, ha⟩, he.symm⟩

/-- Counterexample to claim C6 as stated: for a track list whose bitrate
budget is all audio (a single audio track budgeted 64 kbps), the configure
request carries no bitrate hint at all, not the claimed sum times 1000. -/
theorem configure_bitrate_counterexample :
    (buildConfigureRequest ⟨"offer", "v=0"⟩ [⟨.audio, some 64⟩]).bitrate = none ∧
    audioBitrateSum [⟨.audio, some 64⟩] + videoBitrateSum [⟨.audio, some 64⟩] = 64 ∧
    (buildConfigureRequest ⟨"offer", "v=0"⟩ [⟨.audio, some 64⟩]).bitrate ≠ some (64 * 1000) := by
  decide

theorem sumBitrates_go (l : List LocalTrack) (acc : Nat × Nat) :
    l.foldl
      (fun ab t =>
        if t.kind = TrackKind.audio ∧ t.truthyBitrate ≠ 0 then (ab.1 + t.truthyBitrate, ab.2)
        else if t.kind = TrackKind.video ∧ t.truthyBitrate ≠ 0 then (ab.1, ab.2 + t.truthyBitrate)
        else ab) acc
    = (acc.1 + audioBitrateSum l, acc.2 + videoBitrateSum l) := by
  induction l generalizing acc with
  | nil => simp [audioBitrateSum, videoBitrateSum]
  | cons t l ih =>
    rw [List.foldl_cons, ih]
    rcases t with ⟨k, b⟩
    cases k with
    | audio =>
      cases b with
      | none =>
        simp [audioBitrateSum, videoBitrateSum, LocalTrack.truthyBitrate, List.filterMap_cons]
      | some n =>
        by_cases hn : n = 0
        · subst hn
          simp [audioBitrateSum, videoBitrateSum, LocalTrack.truthyBitrate, List.filterMap_cons]
        · simp [audioBitrateSum, videoBitrateSum, LocalTrack.truthyBitrate,
            List.filterMap_cons, hn, Prod.mk.injEq]
          omega
    | video =>
      cases b with
      | none =>
        simp [audioBitrateSum, videoBitrateSum, LocalTrack.truthyBitrate, List.filterMap_cons]
      | some n =>
        by_cases hn : n = 0
        · subst hn
          simp [audioBitrateSum, videoBitrateSum, LocalTrack.truthyBitrate, List.filterMap_cons]
        · simp [audioBitrateSum, videoBitrateSum, LocalTrack.truthyBitrate,
            List.filterMap_cons, hn, Prod.mk.injEq]
          omega

theorem sumBitrates_eq (tracks : List LocalTrack) :
    sumBitrates tracks = (audioBitrateSum tracks, videoBitrateSum tracks) := by
  unfold sumBitrates
  rw [sumBitrates_go]
  simp

/-- Claim C6 amended: the configure request carries a bitrate hint only when
the summed video budget is positive, and then the hint equals the sum of the
audio and video per-track budgets times 1000 (the gateway rate unit); with no
video budget the hint is omitted entirely.  The call returns the gateway
answer description, or fails with UNEXPECTED_ERROR when the response carries
none. -/
theorem configure_bitrate_amended (offer : Jsep) (tracks : List LocalTrack)
    (resp : ConfigureResponse) :
    (buildConfigureRequest offer tracks).bitrate =
      (if 0 < videoBitrateSum tracks
        then some ((audioBitrateSum tracks + videoBitrateSum tracks) * 1000) else none) ∧
    (buildConfigureRequest offer tracks).jsep = offer ∧
    (∀ j, resp.jsep = some j → configureMedia resp = .ok j) ∧
    (resp.jsep = none → configureMedia resp = .error .UNEXPECTED_ERROR) := by
  refine ⟨?_, rfl, ?_, ?_⟩
  · show configureBitrate tracks = _
    unfold configureBitrate
    rw [sumBitrates_eq]
    by_cases h : 0 < videoBitrateSum tracks
    · rw [if_pos h, if_pos h, Nat.add_comm]
    · rw [if_neg h, if_neg h]
  · intro j hj
    unfold configureMedia
    rw [hj]
  · intro hj
    unfold configureMedia
    rw [hj]

/-- Witness for claim C6 (amended): one audio track budgeted 64 and one video
track budgeted 400 produce the hint 464000, and a concrete answer description
is returned. -/
theorem configure_bitrate_amended_witness :
    (buildConfigureRequest ⟨"offer", "v=0"⟩ [⟨.audio, some 64⟩, ⟨.video, some 400⟩]).bitrate =
      some 464000 ∧
    configureMedia ⟨some ⟨"answer", "v=0"⟩⟩ = .ok ⟨"answer", "v=0"⟩ := by
  have h := configure_bitrate_amended ⟨"offer", "v=0"⟩ [⟨.audio, some 64⟩, ⟨.video, some 400⟩]
    ⟨some ⟨"answer", "v=0"⟩⟩
  refine ⟨?_, h.2.2.1 ⟨"answer", "v=0"⟩ rfl⟩
  rw [h.1]
  decide

theorem assocGet_assocSet {α β : Type} [DecidableEq α] (l : List (α × β)) (k : α) (v : β) :
    assocGet (assocSet l k v) k = some v := by
  induction l with
  | nil => simp [assocSet, assocGet]
  | cons kv rest ih =>
    rcases kv with ⟨k0, v0⟩
    by_cases h : k0 = k
    · simp [assocSet, assocGet, h]
    · simp [assocSet, assocGet, h, ih]

/-- Claim C7: subscribing a track for a remote user whose matching slot
(video or audio) is already bound never raises an error: the binding step of
doSubscribe always succeeds, the previously bound track is stopped, and the
new track ends up bound in the slot. -/
theorem resubscribe_replaces_binding_without_error
    (users : List (JanusID × RemoteUserSubscribed)) (userId : JanusID) (track : RemoteTrack) :
    (∃ r, bindSubscribedTrack users userId track = .ok r) ∧
    (∀ users' stopped, bindSubscribedTrack users userId track = .ok (users', stopped) →
      slotOf users' userId track.kind = some track) ∧
    (∀ u t0, assocGet users userId = some u →
      (track.kind = .video → u.videoTrack = some t0 →
        bindSubscribedTrack users userId track =
          .ok (assocSet users userId { u with videoTrack := some track }, [t0])) ∧
      (track.kind = .audio → u.audioTrack = some t0 →
        bindSubscribedTrack users userId track =
          .ok (assocSet users userId { u with audioTrack := some track }, [t0]))) := by
  refine ⟨?_, ?_, ?_⟩
  · unfold bindSubscribedTrack
    cases track.kind <;> exact ⟨_, rfl⟩
  · intro users' stopped hok
    unfold bindSubscribedTrack at hok
    cases hk : track.kind with
    | video =>
      rw [hk] at hok
      simp only [Except.ok.injEq, Prod.mk.injEq] at hok
      unfold slotOf
      rw [← hok.1, assocGet_assocSet]
    | audio =>
      rw [hk] at hok
      simp only [Except.ok.injEq, Prod.mk.injEq] at hok
      unfold slotOf
      rw [← hok.1, assocGet_assocSet]
  · intro u t0 hu
    constructor
    · intro hk hbound
      unfold bindSubscribedTrack
      rw [hk, hu]
      simp [hbound]
    · intro hk hbound
      unfold bindSubscribedTrack
      rw [hk, hu]
      simp [hbound]

/-- Witness for claim C7: rebinding the video slot of user 9, already bound to
an old track, stops the old track and binds the new one. -/
theorem resubscribe_replaces_binding_without_error_witness :
    bindSubscribedTrack
        [(Sum.inr 9, ⟨Sum.inr 9, none, some ⟨"0", "h264", .video⟩⟩)]
        (Sum.inr 9) ⟨"1", "h264", .video⟩ =
      .ok ([(Sum.inr 9, ⟨Sum.inr 9, none, some ⟨"1", "h264", .video⟩⟩)],
        [⟨"0", "h264", .video⟩]) := by
  have h := (resubscribe_replaces_binding_without_error
    [(Sum.inr 9, ⟨Sum.inr 9, none, some ⟨"0", "h264", .video⟩⟩)]
    (Sum.inr 9) ⟨"1", "h264", .video⟩).2.2
    ⟨Sum.inr 9, none, some ⟨"0", "h264", .video⟩⟩ ⟨"0", "h264", .video⟩ (by decide)
  have h2 := h.1 rfl rfl
  rw [h2]
  rfl

/-- Counterexample to claim C9 as stated: on a client with no attached
publisher handle, a publisher-scoped request fails with UNEXPECTED_ERROR,
which is not the InvalidOperation class the claim names (and nothing is
written to the transport). -/
theorem unbound_handle_error_class_counterexample :
    (sendRequest emptySignalState "t1" (some .publisher)).1 =
      .error ErrorCode.UNEXPECTED_ERROR ∧
    ErrorCode.UNEXPECTED_ERROR ≠ ErrorCode.INVALID_OPERATION ∧
    (sendRequest emptySignalState "t1" (some .publisher)).2.sent = [] := by
  refine ⟨rfl, by decide, rfl⟩

/-- Claim C9 amended: a handle-scoped request issued before the corresponding
handle was attached fails fast with an unbound-handle error of the
UNEXPECTED_ERROR class (not INVALID_OPERATION), and nothing is written to the
transport (the signal state, including the sent log, is unchanged). -/
theorem unbound_handle_fails_fast (s : SignalState) (tid : String) (ht : HandleType)
    (h : (ht = .publisher ∧ s.publisherId = none) ∨ (ht = .subscriber ∧ s.subscriberId = none)) :
    (sendRequest s tid (some ht)).1 = .error .UNEXPECTED_ERROR ∧
    (sendRequest s tid (some ht)).2 = s := by
  rcases h with ⟨h1, h2⟩ | ⟨h1, h2⟩ <;> subst h1 <;> unfold sendRequest <;> rw [h2] <;>
    exact ⟨rfl, rfl⟩

/-- Witness for claim C9 (amended): applied to the fresh signal state. -/
theorem unbound_handle_fails_fast_witness :
    (sendRequest emptySignalState "t2" (some .subscriber)).1 =
      .error ErrorCode.UNEXPECTED_ERROR ∧
    (sendRequest emptySignalState "t2" (some .subscriber)).2 = emptySignalState :=
  unbound_handle_fails_fast emptySignalState "t2" .subscriber (Or.inr ⟨rfl, rfl⟩)

theorem dequeue_max_const (q : PromiseQueue) :
    (q.dequeue).1.maxPendingPromises = q.maxPendingPromises := by
  unfold PromiseQueue.dequeue
  by_cases hle : q.maxPendingPromises ≤ q.pendingPromises
  · rw [if_pos hle]
  · rw [if_neg hle]
    cases q.queue with
    | nil => rfl
    | cons a l => rfl

theorem dequeue_pending_le (q : PromiseQueue) (h : q.pendingPromises ≤ q.maxPendingPromises) :
    (q.dequeue).1.pendingPromises ≤ (q.dequeue).1.maxPendingPromises := by
  unfold PromiseQueue.dequeue
  by_cases hle : q.maxPendingPromises ≤ q.pendingPromises
  · rw [if_pos hle]
    exact h
  · rw [if_neg hle]
    cases q.queue with
    | nil => exact h
    | cons a l =>
      show q.pendingPromises + 1 ≤ q.maxPendingPromises
      omega

theorem applyQOp_max_const (q : PromiseQueue) (op : QOp) :
    (applyQOp q op).maxPendingPromises = q.maxPendingPromises := by
  cases op with
  | add t =>
    show (PromiseQueue.dequeue _).1.maxPendingPromises = _
    rw [dequeue_max_const]
  | complete =>
    unfold applyQOp PromiseQueue.resolveOne
    by_cases h0 : q.pendingPromises = 0
    · rw [if_pos h0]
    · rw [if_neg h0]
      rw [dequeue_max_const]

theorem applyQOp_pending_le (q : PromiseQueue) (op : QOp)
    (h : q.pendingPromises ≤ q.maxPendingPromises) :
    (applyQOp q op).pendingPromises ≤ (applyQOp q op).maxPendingPromises := by
  cases op with
  | add t =>
    show (PromiseQueue.dequeue _).1.pendingPromises ≤ _
    exact dequeue_pending_le _ h
  | complete =>
    unfold applyQOp PromiseQueue.resolveOne
    by_cases h0 : q.pendingPromises = 0
    · rw [if_pos h0]
      exact h
    · rw [if_neg h0]
      exact dequeue_pending_le _ (show q.pendingPromises - 1 ≤ q.maxPendingPromises by omega)

theorem runQOps_pending_le (ops : List QOp) (q : PromiseQueue)
    (h : q.pendingPromises ≤ q.maxPendingPromises) :
    (runQOps ops q).pendingPromises ≤ (runQOps ops q).maxPendingPromises := by
  induction ops generalizing q with
  | nil => exact h
  | cons op rest ih => exact ih _ (applyQOp_pending_le q op h)

theorem runQOps_max_const (ops : List QOp) (q : PromiseQueue) :
    (runQOps ops q).maxPendingPromises = q.maxPendingPromises := by
  induction ops generalizing q with
  | nil => rfl
  | cons op rest ih =>
    unfold runQOps at *
    rw [List.foldl_cons, ih, applyQOp_max_const]

/-- Claim C10: the subscribe queue built with concurrency 1 keeps at most one
subscribe in flight under every sequence of subscribe calls and completions;
a subscribe added while one is in flight does not start (it is parked in the
FIFO) and starts exactly when the in-flight one completes. -/
theorem subscribe_serialization :
    (∀ ops : List QOp, (runQOps ops subscribeQueueInit).pendingPromises ≤ 1) ∧
    (∀ (q : PromiseQueue) (t : Nat), q.maxPendingPromises = 1 → q.pendingPromises = 1 →
      q.add t = ({ q with queue := q.queue ++ [t] }, none)) ∧
    (∀ (q : PromiseQueue) (t : Nat) (rest : List Nat),
      q.maxPendingPromises = 1 → q.pendingPromises = 1 → q.queue = t :: rest →
      q.resolveOne = ({ q with pendingPromises := 1, queue := rest }, some t)) := by
  refine ⟨?_, ?_, ?_⟩
  · intro ops
    have h := runQOps_pending_le ops subscribeQueueInit (by decide)
    have hm := runQOps_max_const ops subscribeQueueInit
    rw [hm] at h
    exact h
  · intro q t hm hp
    unfold PromiseQueue.add PromiseQueue.dequeue
    simp [hm, hp]
  · intro q t rest hm hp hq
    unfold PromiseQueue.resolveOne PromiseQueue.dequeue
    simp [hm, hp, hq]

/-- Witness for claim C10: with one subscribe in flight and one parked, a new
add parks and a completion starts the parked one. -/
theorem subscribe_serialization_witness :
    PromiseQueue.add ⟨1, 1, []⟩ 5 = (⟨1, 1, [5]⟩, none) ∧
    PromiseQueue.resolveOne ⟨1, 1, [5]⟩ = (⟨1, 1, []⟩, some 5) :=
  ⟨subscribe_serialization.2.1 ⟨1, 1, []⟩ 5 rfl rfl,
    subscribe_serialization.2.2 ⟨1, 1, [5]⟩ 5 [] rfl rfl rfl⟩

end Janus
